import Mathlib

/-
Verification of the alicat driver (src/alicat/driver.py, src/alicat/util.py).

The Python code is shallowly embedded: each relevant method becomes a pure
Lean function.  I/O exchanges are modelled by passing the device's response
lines (as `Option String`, `none` standing for Python `None`, i.e. a failed
exchange) as explicit arguments; every command actually written to the wire
is collected in a `List String` trace.  Python exceptions become an explicit
`Err` sum.  Numeric tokens are modelled exactly: Python `float()` / `int()`
are restricted to plain decimal numerals (the only shapes the protocol and
the claims exercise) and floating point arithmetic is modelled by exact
rationals.
-/

namespace Alicat

/-- Equality of `Except` results is decidable when both components are. -/
instance {ε α : Type} [DecidableEq ε] [DecidableEq α] : DecidableEq (Except ε α) :=
  fun a b =>
    match a, b with
    | Except.ok x, Except.ok y =>
      if h : x = y then isTrue (by rw [h]) else isFalse (fun hh => by cases hh; exact h rfl)
    | Except.error x, Except.error y =>
      if h : x = y then isTrue (by rw [h]) else isFalse (fun hh => by cases hh; exact h rfl)
    | Except.ok _, Except.error _ => isFalse (fun hh => by cases hh)
    | Except.error _, Except.ok _ => isFalse (fun hh => by cases hh)

/-- Python exceptions raised by the driver code paths under study. -/
inductive Err where
  | oserror (msg : String)
  | valueError (msg : String)
  | attributeError
  | indexError
  | typeError
  deriving DecidableEq

/-- A parsed response token: numeric if Python `float()` accepts it, else the
raw string (driver.py `_is_float` / the `get` comprehension). -/
inductive Value where
  | num (q : Rat)
  | str (s : String)
  deriving DecidableEq

/-- Accumulate the value of a list of decimal digit characters. -/
def digitsVal (cs : List Char) : Nat :=
  cs.foldl (fun a c => a * 10 + (c.toNat - 48)) 0

def allDigits (cs : List Char) : Bool :=
  cs.all Char.isDigit

/-- Python `float(s)` restricted to plain decimal numerals
(optional sign, digits, optional decimal dot): `none` models ValueError.
The value is built with `mkRat` so that it evaluates by kernel reduction. -/
def pyFloat (s : String) : Option Rat :=
  let cs := s.data
  let p := match cs with
    | '-' :: t => (true, t)
    | '+' :: t => (false, t)
    | t => (false, t)
  let ip := p.2.takeWhile (fun c => c ≠ '.')
  let rest := p.2.dropWhile (fun c => c ≠ '.')
  let mk (ipart fpart : List Char) : Option Rat :=
    if (ipart ++ fpart) ≠ [] ∧ allDigits (ipart ++ fpart) then
      let n : Int := (digitsVal (ipart ++ fpart) : Nat)
      some (mkRat (if p.1 then -n else n) ((10 : Nat) ^ fpart.length))
    else none
  match rest with
  | [] => mk ip []
  | _ :: fp => if fp.contains '.' then none else mk ip fp

/-- Exact difference of two rationals, built with `mkRat` on the raw
numerators and denominators so that it evaluates by kernel reduction
(`ratSub_eq_sub` below shows it agrees with subtraction on `Rat`). -/
def ratSub (a b : Rat) : Rat :=
  mkRat (a.num * (b.den : Int) - b.num * (a.den : Int)) (a.den * b.den)

/-- Exact absolute value of a rational, built with `mkRat`
(`ratAbs_eq_abs` below shows it agrees with `|·|` on `Rat`). -/
def ratAbs (a : Rat) : Rat :=
  mkRat (a.num.natAbs : Int) a.den

/-- Fuel-driven floor of the base-2 logarithm of a natural number
(structural recursion so that it evaluates by kernel reduction). -/
def log2fuel : Nat → Nat → Nat
  | 0, _ => 0
  | fuel + 1, n => if 2 ≤ n then log2fuel fuel (n / 2) + 1 else 0

/-- Floor of the base-2 logarithm: `2 ^ nlog2 n ≤ n < 2 ^ (nlog2 n + 1)` for
`n ≥ 1`. -/
def nlog2 (n : Nat) : Nat :=
  log2fuel n n

/-- Whether `2 ^ e ≤ n / d` for positive naturals `n`, `d`. -/
def pow2le (n d : Nat) (e : Int) : Bool :=
  if 0 ≤ e then decide (d * 2 ^ e.toNat ≤ n) else decide (d ≤ n * 2 ^ (-e).toNat)

/-- Floor of the base-2 logarithm of `n / d` for positive naturals: the guess
`nlog2 n - nlog2 d` is exact or one too large, and `pow2le` discriminates. -/
def ratFloorLog2 (n d : Nat) : Int :=
  let g : Int := (nlog2 n : Int) - (nlog2 d : Int)
  if pow2le n d g then g else g - 1

/-- Nearest integer to `nn / dd`, ties to even (IEEE round-to-nearest). -/
def roundHalfEvenDiv (nn dd : Nat) : Nat :=
  let q := nn / dd
  let r := nn % dd
  if 2 * r < dd then q
  else if dd < 2 * r then q + 1
  else if q % 2 = 0 then q else q + 1

/-- Round an exact rational to the nearest IEEE-754 binary64 double
(round-to-nearest, ties-to-even), returned as the exact rational value of
that double: the magnitude is scaled to a 53-bit significand `m` with
`2 ^ 52 ≤ n / d / 2 ^ e < 2 ^ 53` and `m` is the rounded quotient.  The
model covers the normal range (no overflow or subnormal handling), which is
all the driver's setpoint comparisons exercise. -/
def roundDouble (x : Rat) : Rat :=
  if x.num = 0 then mkRat 0 1
  else
    let n := x.num.natAbs
    let d := x.den
    let e : Int := ratFloorLog2 n d - 52
    let m : Nat :=
      if 0 ≤ e then roundHalfEvenDiv n (d * 2 ^ e.toNat)
      else roundHalfEvenDiv (n * 2 ^ (-e).toNat) d
    let sgn : Int := if x.num < 0 then -1 else 1
    if 0 ≤ e then mkRat (sgn * (m : Int) * 2 ^ e.toNat) 1
    else mkRat (sgn * (m : Int)) (2 ^ (-e).toNat)

/-- IEEE-754 binary64 subtraction on exactly-represented doubles: the exact
difference rounded to the nearest double. -/
def dSub (a b : Rat) : Rat :=
  roundDouble (ratSub a b)

/-- The binary64 double nearest to the literal `0.01` of the source. -/
def d001 : Rat :=
  roundDouble (mkRat 1 100)

/-- driver.py `FlowMeter._is_float`. -/
def is_float (s : String) : Bool :=
  (pyFloat s).isSome

/-- Token coercion in `FlowMeter.get`: `float(v) if self._is_float(v) else v`. -/
def coerce (s : String) : Value :=
  match pyFloat s with
  | some q => Value.num q
  | none => Value.str s

/-- Python `int(s)`: optional surrounding whitespace, optional sign, digits. -/
def pyInt (s : String) : Option Int :=
  let cs := s.data.dropWhile Char.isWhitespace
  let cs := (cs.reverse.dropWhile Char.isWhitespace).reverse
  let p : Bool × List Char := match cs with
    | '-' :: t => (true, t)
    | '+' :: t => (false, t)
    | t => (false, t)
  if p.2 ≠ [] ∧ allDigits p.2 then
    some (if p.1 then -(digitsVal p.2 : Int) else (digitsVal p.2 : Int))
  else none

/-- Helper for `pySplit`: walk the characters, breaking at whitespace runs. -/
def splitWsAux : List Char → List Char → List String
  | [], acc => if acc.isEmpty then [] else [String.mk acc.reverse]
  | c :: t, acc =>
    if c.isWhitespace then
      if acc.isEmpty then splitWsAux t [] else String.mk acc.reverse :: splitWsAux t []
    else splitWsAux t (c :: acc)

/-- Python `str.split()` with no argument: split on whitespace runs,
discarding empty tokens. -/
def pySplit (s : String) : List String :=
  splitWsAux s.data []

/-- Helper for `pySplitEq`. -/
def splitEqAux : List Char → List Char → List String
  | [], acc => [String.mk acc.reverse]
  | c :: t, acc =>
    if c = '=' then String.mk acc.reverse :: splitEqAux t []
    else splitEqAux t (c :: acc)

/-- Python `str.split('=')`: split at every equals sign, keeping empty parts
(the result is always nonempty). -/
def pySplitEq (s : String) : List String :=
  splitEqAux s.data []

/-- Python `str.upper()` (ASCII fragment, as used by the protocol tokens). -/
def pyUpper (s : String) : String :=
  String.mk (s.data.map Char.toUpper)

/-- The three overrange markers silently stripped by `FlowMeter.get`
(`values[-1].upper() in ['MOV', 'VOV', 'POV']`). -/
def isOverrange (s : String) : Bool :=
  ["MOV", "VOV", "POV"].contains (pyUpper s)

/-- Helper for `stripOverrange`, working on the reversed token list. -/
def stripRev : List String → Except Err (List String)
  | [] => Except.error Err.indexError
  | t :: rest => if isOverrange t then stripRev rest else Except.ok (t :: rest)

/-- The `while values[-1].upper() in ['MOV', 'VOV', 'POV']: del values[-1]`
loop of `FlowMeter.get`.  Indexing `values[-1]` on an empty list raises
IndexError, which happens exactly when every token (or the whole list) is
stripped. -/
def stripOverrange (vs : List String) : Except Err (List String) :=
  (stripRev vs.reverse).map List.reverse

/-- The lock-flag extraction of `FlowMeter.get`: one trailing `LCK` token
(case-insensitive) is removed and reported as `button_lock = True`. -/
def extractLock (vs : List String) : Except Err (Bool × List String) :=
  match vs.getLast? with
  | none => Except.error Err.indexError
  | some l => if pyUpper l = "LCK" then Except.ok (true, vs.dropLast)
              else Except.ok (false, vs)

/-- Python `del keys[-2]`. -/
def delSecondToLast (ks : List String) : List String :=
  ks.take (ks.length - 2) ++ ks.drop (ks.length - 1)

/-- Python `list.insert(i, x)`. -/
def insertAt (i : Nat) (x : String) (ks : List String) : List String :=
  ks.take i ++ [x] ++ ks.drop i

/-- The schema-adjustment block of `FlowMeter.get` (driver.py lines 139-144):
the three rules fire only against a 6-long schema. -/
def adjustKeys (ks : List String) (n : Nat) : List String :=
  if n = 5 ∧ ks.length = 6 then delSecondToLast ks
  else if n = 7 ∧ ks.length = 6 then insertAt 5 "total flow" ks
  else if n = 2 ∧ ks.length = 6 then insertAt 1 "setpoint" ks
  else ks

/-- The per-session mutable state of `FlowMeter` used by `get`. -/
structure MeterState where
  unit : String
  keys : List String
  isOpen : Bool
  buttonLock : Bool
  deriving DecidableEq

/-- The schema `FlowMeter.__init__` starts from. -/
def initialKeys : List String :=
  ["pressure", "temperature", "volumetric_flow", "mass_flow", "setpoint", "gas"]

/-- A freshly constructed meter on unit `A`. -/
def meterA : MeterState :=
  { unit := "A", keys := initialKeys, isOpen := true, buttonLock := false }

/-- The baseline schema after the 5-token rule (`del keys[-2]`). -/
def keysWithoutSetpoint : List String :=
  ["pressure", "temperature", "volumetric_flow", "mass_flow", "gas"]

/-- The baseline schema after the 7-token rule (`insert(5, 'total flow')`). -/
def keysWithTotal : List String :=
  ["pressure", "temperature", "volumetric_flow", "mass_flow", "setpoint",
   "total flow", "gas"]

/-- The OSError message of `FlowMeter._test_controller_open` (note the second
half of the message is a literal in the source: the f prefix is only on the
first adjacent string literal). -/
def unopenedError (unit : String) : Err :=
  Err.oserror ("The FlowMeter with unit ID " ++ unit ++
    " and port \x7bself.hw.address\x7d is not open")

/-- The body of `FlowMeter.get` after the response line has been split into
the echoed unit and the value tokens: strip overrange markers, check the
unit, extract the lock flag, adjust the schema, zip it with coerced values. -/
def getCore (st : MeterState) (unit : String) (values : List String) :
    Except Err (MeterState × List (String × Value)) :=
  match stripOverrange values with
  | Except.error e => Except.error e
  | Except.ok values1 =>
    if unit ≠ st.unit then
      Except.error (Err.valueError "Flow controller unit ID mismatch.")
    else
      match extractLock values1 with
      | Except.error e => Except.error e
      | Except.ok (lck, values2) =>
        let ks := adjustKeys st.keys values2.length
        Except.ok ({ st with keys := ks, buttonLock := lck },
                   ks.zip (values2.map coerce))

/-- `FlowMeter.get`: check the driver-level open flag, then parse the
exchange's result (`none` models `_write_and_read` returning `None`, on which
`line.split()` raises AttributeError; an empty split raises IndexError at
`spl[0]`). -/
def get (st : MeterState) (line : Option String) :
    Except Err (MeterState × List (String × Value)) :=
  if st.isOpen = false then Except.error (unopenedError st.unit)
  else
    match line with
    | none => Except.error Err.attributeError
    | some l =>
      match pySplit l with
      | [] => Except.error Err.indexError
      | unit :: values => getCore st unit values

/-! ### Transport client (util.py `Client`) -/

/-- The mutable state of `util.Client` relevant to timeout accounting. -/
structure ClientState where
  isOpen : Bool
  timeouts : Nat
  maxTimeouts : Nat
  reconnecting : Bool
  deriving DecidableEq

/-- A client that has successfully connected (`_connect` sets `open = True`,
`__init__` sets `timeouts = 0`, `max_timeouts = 10`). -/
def connectedClient : ClientState :=
  { isOpen := true, timeouts := 0, maxTimeouts := 10, reconnecting := false }

/-- `Client._handle_communication`: the argument is the outcome of the
awaited read (`none` models a timeout/transport error).  Success zeroes
`timeouts`; failure increments it and, exactly at `max_timeouts`, closes
the client (`await self.close()` sets `open = False`). -/
def handleCommunication (c : ClientState) (resp : Option String) :
    ClientState × Option String :=
  match resp with
  | some r => ({ c with timeouts := 0 }, some r)
  | none =>
    let t := c.timeouts + 1
    if t = c.maxTimeouts then
      ({ c with timeouts := t, isOpen := false }, none)
    else
      ({ c with timeouts := t }, none)

/-- `Client._handle_connection`: a no-op when open; otherwise one bounded
connection attempt (`connectOk` tells whether `_connect` succeeded within
the timeout). -/
def handleConnection (c : ClientState) (connectOk : Bool) : ClientState :=
  if c.isOpen then c
  else if connectOk then { c with isOpen := true, reconnecting := false }
  else { c with reconnecting := true }

/-- `Client._write_and_read`: ensure a connection attempt, then exchange
under the lock; if the client is (still) not open, return `None`. -/
def writeAndRead (c : ClientState) (connectOk : Bool) (resp : Option String) :
    ClientState × Option String :=
  let c1 := handleConnection c connectOk
  if c1.isOpen then handleCommunication c1 resp
  else (c1, none)

/-- Iterate `n` failed exchanges on an open client. -/
def applyFails : ClientState → Nat → ClientState
  | c, 0 => c
  | c, n + 1 => applyFails (handleCommunication c none).1 n

/-! ### Controller (driver.py `FlowController`) -/

/-- The state of a `FlowController` used by the setpoint machinery. -/
structure Controller where
  isOpen : Bool
  unit : String
  controlPoint : Option String
  deriving DecidableEq

/-- `FlowController.registers`. -/
def registers : List (String × Nat) :=
  [("mass flow", 0b00100101), ("vol flow", 0b00100100),
   ("abs pressure", 0b00100010), ("gauge pressure", 0b00100110),
   ("diff pressure", 0b00100111)]

/-- Python `self.registers[point]` guarded by `point not in self.registers`. -/
def lookupRegister (p : String) : Option Nat :=
  (registers.find? (fun kv => kv.1 == p)).map Prod.snd

/-- Python `f'{x:.2f}'` modelled on the exact rational: round the value of
`100 * x` to the nearest integer (ties to even) and print two decimals. -/
def fmt2 (x : Rat) : String :=
  let n : Int := x.num * 100
  let d : Int := (x.den : Int)
  let q := n.ediv d
  let r := n.emod d
  let q' := if 2 * r < d then q
            else if d < 2 * r then q + 1
            else if q % 2 = 0 then q else q + 1
  let sign := if q' < 0 then "-" else ""
  let m := q'.natAbs
  sign ++ toString (m / 100) ++ "." ++
    (if m % 100 < 10 then "0" else "") ++ toString (m % 100)

/-- `FlowController._set_setpoint`: send `f'{unit}S{setpoint:.2f}'`, parse the
echoed current value from token position 5 (IndexError is caught and skips
verification; a non-numeric token raises the uncaught `float()` ValueError),
and raise OSError when `abs(current - setpoint) > 0.01`.  That comparison is
performed by the source on IEEE-754 binary64 doubles, modelled exactly:
the parsed value, the setpoint argument and the literal `0.01` are rounded
to the nearest double, the subtraction rounds once more (`dSub`), and the
absolute value and the comparison are exact on doubles.
The first component is the list of commands written to the wire. -/
def set_setpoint (c : Controller) (setpoint : Rat) (line : Option String) :
    List String × Except Err Unit :=
  if c.isOpen = false then ([], Except.error (unopenedError c.unit))
  else
    let command := c.unit ++ "S" ++ fmt2 setpoint
    ([command],
      match line with
      | none => Except.error Err.attributeError
      | some l =>
        match (pySplit l).get? 5 with
        | none => Except.ok ()
        | some t =>
          match pyFloat t with
          | none => Except.error (Err.valueError "could not convert string to float")
          | some current =>
            if d001 < ratAbs (dSub (roundDouble current) (roundDouble setpoint)) then
              Except.error (Err.oserror "Could not set setpoint.")
            else Except.ok ())

/-- `FlowController._set_control_point`: validate the point name, write
register 122, parse the echo after the last `=` and verify it; only then
update the cached control point. -/
def set_control_point (c : Controller) (point : String) (line : Option String) :
    List String × Except Err Controller :=
  match lookupRegister point with
  | none => ([], Except.error (Err.valueError "Control point must be 'flow' or 'pressure'."))
  | some reg =>
    let command := c.unit ++ "W122=" ++ toString reg
    ([command],
      match line with
      | none => Except.error Err.attributeError
      | some l =>
        match pyInt ((pySplitEq l).getLast!) with
        | none => Except.error (Err.valueError "invalid literal for int")
        | some value =>
          if value ≠ (reg : Int) then Except.error (Err.oserror "Could not set control point.")
          else Except.ok { c with controlPoint := some point })

/-- `FlowController.set_pressure`: if the cached control point is a flow
category, first zero the setpoint and switch register 122 to absolute
pressure; then write the target setpoint.  `l1 l2 l3` are the device's
responses to the successive exchanges (the single-write path uses `l1`). -/
def set_pressure (c : Controller) (pressure : Rat) (l1 l2 l3 : Option String) :
    List String × Except Err Controller :=
  if c.controlPoint = some "mass flow" ∨ c.controlPoint = some "vol flow" then
    let s1 := set_setpoint c 0 l1
    match s1.2 with
    | Except.error e => (s1.1, Except.error e)
    | Except.ok _ =>
      let s2 := set_control_point c "abs pressure" l2
      match s2.2 with
      | Except.error e => (s1.1 ++ s2.1, Except.error e)
      | Except.ok c2 =>
        let s3 := set_setpoint c2 pressure l3
        (s1.1 ++ s2.1 ++ s3.1, s3.2.map (fun _ => c2))
  else
    let s := set_setpoint c pressure l1
    (s.1, s.2.map (fun _ => c))

/-! ### Gas selection and mixes (driver.py `FlowMeter`) -/

/-- `FlowMeter.gases`. -/
def gasTable : List String :=
  ["Air", "Ar", "CH4", "CO", "CO2", "C2H6", "H2", "He",
   "N2", "N2O", "Ne", "O2", "C3H8", "n-C4H10", "C2H2",
   "C2H4", "i-C2H10", "Kr", "Xe", "SF6", "C-25", "C-10",
   "C-8", "C-2", "C-75", "A-75", "A-25", "A1025", "Star29",
   "P-5"]

/-- Python `list.index`. -/
def pyIndex (l : List String) (x : String) : Nat :=
  l.findIdx (fun s => s == x)

/-- The `gas` argument of `set_gas`: a name or a raw integer index. -/
inductive GasArg where
  | name (s : String)
  | idx (n : Int)
  deriving DecidableEq

/-- `FlowMeter.set_gas`: resolve the gas number, write register 46, then
issue the read-back.  The read-back command is the literal
`'f{self.unit}$$R46'` from the source: the `f` string prefix is missing, so
the braces are sent verbatim instead of the unit identifier.  The echoed
value's last whitespace token is parsed with `int()` and masked with
`0b0000000111111111` (modelled as `emod 512`). -/
def set_gas (c : Controller) (gas : GasArg) (r46Resp : Option String) :
    List String × Except Err Unit :=
  if c.isOpen = false then ([], Except.error (unopenedError c.unit))
  else
    match (match gas with
           | GasArg.name s =>
             if gasTable.contains s = false then
               Except.error (Err.valueError (s ++ " not supported!"))
             else Except.ok ((pyIndex gasTable s : Nat) : Int)
           | GasArg.idx n => Except.ok n : Except Err Int) with
    | Except.error e => ([], Except.error e)
    | Except.ok gas_number =>
      let command := c.unit ++ "$$W46=" ++ toString gas_number
      let readback := "f\x7bself.unit\x7d$$R46"
      ([command, readback],
        match r46Resp with
        | none => Except.error Err.attributeError
        | some reg46 =>
          match (pySplit reg46).getLast? with
          | none => Except.error Err.indexError
          | some tok =>
            match pyInt tok with
            | none => Except.error (Err.valueError "invalid literal for int")
            | some v =>
              let reg46_gasbit := v.emod 512
              if gas_number ≠ reg46_gasbit then Except.error (Err.oserror "Cannot set gas.")
              else Except.ok ())

/-- Python `needle in haystack` on strings (substring test), on char lists. -/
def subOf : List Char → List Char → Bool
  | needle, [] => needle.isEmpty
  | needle, c :: t => needle.isPrefixOf (c :: t) || subOf needle t

/-- Python `v in firmware`. -/
def pyIn (needle hay : String) : Bool :=
  subOf needle.data hay.data

/-- The firmware gate of `create_mix`:
`any(v in firmware for v in ['2v', '3v', '4v', 'GP'])`. -/
def firmwareBad (fw : String) : Bool :=
  ["2v", "3v", "4v", "GP"].any (fun v => pyIn v fw)

/-- The mix-create command `' '.join([unit, 'GM', name, str(mix_no), gas_list])`
with `gas_list` the flattened percent/index pairs. -/
def mixCommand (unit name : String) (mix_no : Int) (gs : List (String × Int)) : String :=
  let gas_list := String.intercalate " "
    (gs.map (fun g => toString g.2 ++ " " ++ toString (pyIndex gasTable g.1)))
  String.intercalate " " [unit, "GM", name, toString mix_no, gas_list]

/-- `FlowMeter.create_mix`.  `firmware` is the session's cached firmware
string (`None` triggers a `{unit}VE` query answered by `feResp`; a `None`
answer is cached and then crashes the `in` test with TypeError).  After the
firmware gate the local validations run in source order: mix slot range,
percentage sum, gas names.  Only then is the mix command sent; a `'?'`
response is a device rejection.  The first component is the list of
commands written to the wire. -/
def create_mix (c : Controller) (firmware : Option String) (feResp : Option String)
    (mix_no : Int) (name : String) (gs : List (String × Int)) (gmResp : Option String) :
    List String × Except Err Unit :=
  if c.isOpen = false then ([], Except.error (unopenedError c.unit))
  else
    let t0 : List String × Option String :=
      match firmware with
      | some fw => ([], some fw)
      | none => ([c.unit ++ "VE"], feResp)
    match t0.2 with
    | none => (t0.1, Except.error Err.typeError)
    | some fw =>
      if firmwareBad fw then
        (t0.1, Except.error (Err.oserror "This unit does not support COMPOSER gas mixes."))
      else if mix_no < 236 ∨ 255 < mix_no then
        (t0.1, Except.error (Err.valueError "Mix number must be between 236-255!"))
      else if (gs.map Prod.snd).sum ≠ 100 then
        (t0.1, Except.error (Err.valueError "Percentages of gas mix must add to 100%!"))
      else if gs.any (fun g => gasTable.contains g.1 = false) then
        (t0.1, Except.error (Err.valueError "Gas not supported!"))
      else
        (t0.1 ++ [mixCommand c.unit name mix_no gs],
          if gmResp = some "?" then Except.error (Err.oserror "Unable to create mix.")
          else Except.ok ())

/-! ### Helper lemmas -/

/-- The schoolbook difference agrees with subtraction on `Rat`. -/
theorem ratSub_eq_sub (a b : Rat) : ratSub a b = a - b := by
  have ha : ((a.den : Rat)) ≠ 0 := by
    exact_mod_cast a.den_nz
  have hb : ((b.den : Rat)) ≠ 0 := by
    exact_mod_cast b.den_nz
  rw [ratSub, Rat.mkRat_eq_div]
  push_cast
  conv_rhs => rw [← Rat.num_div_den a, ← Rat.num_div_den b]
  rw [div_sub_div _ _ ha hb]
  ring_nf

/-- The numerator-wise absolute value agrees with `|·|` on `Rat`. -/
theorem ratAbs_eq_abs (a : Rat) : ratAbs a = |a| := by
  rw [ratAbs, Rat.mkRat_eq_div]
  conv_rhs => rw [← Rat.num_div_den a]
  rw [abs_div]
  congr 1
  · rw [Int.cast_natCast]
    push_cast [Int.cast_natAbs]
    rfl
  · rw [abs_of_nonneg (by positivity)]

/-- Reversed overrange stripping skips any all-marker block. -/
theorem stripRev_append (l r : List String) (h : ∀ m ∈ l, isOverrange m = true) :
    stripRev (l ++ r) = stripRev r := by
  induction l with
  | nil => rfl
  | cons m t ih =>
    have hm : isOverrange m = true := h m (by simp)
    simp only [List.cons_append, stripRev, hm, if_true]
    exact ih (fun x hx => h x (by simp [hx]))

/-- Stripping ignores any block of trailing overrange markers. -/
theorem stripOverrange_append (vs ms : List String)
    (h : ∀ m ∈ ms, isOverrange m = true) :
    stripOverrange (vs ++ ms) = stripOverrange vs := by
  unfold stripOverrange
  rw [List.reverse_append, stripRev_append]
  intro m hm
  exact h m (by simpa using hm)

/-- An open controller's setpoint write puts exactly one command on the wire. -/
theorem set_setpoint_trace (c : Controller) (sp : Rat) (l : Option String)
    (h : c.isOpen = true) :
    (set_setpoint c sp l).1 = [c.unit ++ "S" ++ fmt2 sp] := by
  simp [set_setpoint, h]

/-- A successful control-point switch to absolute pressure wrote exactly the
register-122 command and only updated the cached control point. -/
theorem set_control_point_abs (c c' : Controller) (l : Option String) (tr : List String)
    (h : set_control_point c "abs pressure" l = (tr, Except.ok c')) :
    tr = [c.unit ++ "W122=" ++ toString (34 : Nat)] ∧
      c' = { c with controlPoint := some "abs pressure" } := by
  have hreg : lookupRegister "abs pressure" = some 34 := by decide
  unfold set_control_point at h
  rw [hreg] at h
  rw [Prod.mk.injEq] at h
  obtain ⟨htr, hres⟩ := h
  refine ⟨htr.symm, ?_⟩
  cases l with
  | none => simp at hres
  | some s =>
    simp only [] at hres
    split at hres
    · simp at hres
    · split at hres
      · simp at hres
      · simpa using hres.symm

/-- C1: with a flow-category control point cached, a successful `set_pressure`
issues exactly a zero-setpoint write and a register switch to absolute
pressure before the target setpoint write; with a pressure-category control
point cached it issues only the target setpoint write. -/
theorem c1_set_pressure_writes (c : Controller) (p : Rat) (l1 l2 l3 : Option String)
    (hopen : c.isOpen = true) :
    ((c.controlPoint = some "mass flow" ∨ c.controlPoint = some "vol flow") →
      ∀ tr c', set_pressure c p l1 l2 l3 = (tr, Except.ok c') →
        tr = [c.unit ++ "S" ++ fmt2 0, c.unit ++ "W122=" ++ toString (34 : Nat),
              c.unit ++ "S" ++ fmt2 p]) ∧
    ((c.controlPoint = some "abs pressure" ∨ c.controlPoint = some "gauge pressure" ∨
        c.controlPoint = some "diff pressure") →
      (set_pressure c p l1 l2 l3).1 = [c.unit ++ "S" ++ fmt2 p]) := by
  constructor
  · intro hflow tr c' h
    simp only [set_pressure, if_pos hflow] at h
    rcases hs1 : set_setpoint c 0 l1 with ⟨t1, r1⟩
    rw [hs1] at h
    cases r1 with
    | error e => simp at h
    | ok u =>
      dsimp only at h
      rcases hs2 : set_control_point c "abs pressure" l2 with ⟨t2, r2⟩
      rw [hs2] at h
      cases r2 with
      | error e => simp at h
      | ok c2 =>
        dsimp only at h
        rcases hs3 : set_setpoint c2 p l3 with ⟨t3, r3⟩
        rw [hs3] at h
        dsimp only at h
        rw [Prod.mk.injEq] at h
        obtain ⟨htr, -⟩ := h
        obtain ⟨ht2, hc2⟩ := set_control_point_abs c c2 l2 t2 hs2
        have ht1 : t1 = [c.unit ++ "S" ++ fmt2 0] := by
          have := set_setpoint_trace c 0 l1 hopen
          rw [hs1] at this
          exact this
        have hunit : c2.unit = c.unit := by rw [hc2]
        have hopen2 : c2.isOpen = true := by rw [hc2]; exact hopen
        have ht3 : t3 = [c.unit ++ "S" ++ fmt2 p] := by
          have := set_setpoint_trace c2 p l3 hopen2
          rw [hs3, hunit] at this
          exact this
        rw [← htr, ht1, ht2, ht3]
        rfl
  · intro hp
    have hnot : ¬(c.controlPoint = some "mass flow" ∨ c.controlPoint = some "vol flow") := by
      rcases hp with h | h | h <;> rw [h] <;> decide
    simp [set_pressure, if_neg hnot, set_setpoint_trace c p l1 hopen]

/-- Witness for C1, at unit `A`, control point `mass flow`, target 5:
the trace is literally `AS0.00`, `AW122=34`, `AS5.00`. -/
theorem c1_set_pressure_writes_witness :
    (["AS0.00", "AW122=34", "AS5.00"] : List String)
      = ["A" ++ "S" ++ fmt2 0, "A" ++ "W122=" ++ toString (34 : Nat),
         "A" ++ "S" ++ fmt2 (mkRat 5 1)] :=
  (c1_set_pressure_writes
      { isOpen := true, unit := "A", controlPoint := some "mass flow" }
      (mkRat 5 1) (some "A 1 2 3 4 0.00") (some "AW122=34") (some "A 1 2 3 4 5.00")
      rfl).1 (Or.inl rfl) ["AS0.00", "AW122=34", "AS5.00"]
      { isOpen := true, unit := "A", controlPoint := some "abs pressure" }
      (by decide)

/-- C2 (counterexample): after 10 consecutive failed exchanges the client is
closed and a failing reconnect makes the next exchange yield `None`, but the
subsequent `read()` raises AttributeError, not the unopened-session OSError:
the driver-level `open` flag checked by `_test_controller_open` is untouched
by the client-level close. -/
theorem c2_counterexample :
    (applyFails connectedClient 10).isOpen = false ∧
    (writeAndRead (applyFails connectedClient 10) false (some "A 1 2 3 4 5 A")).2 = none ∧
    get meterA none = Except.error Err.attributeError ∧
    get meterA none ≠ Except.error (unopenedError "A") := by decide

/-- C2 (amended): any successful exchange resets the timeout counter to 0
(in particular a success after 9 consecutive failures), and after 10
consecutive failed exchanges the transport client transitions to closed; a
subsequent `read()` whose exchange consequently yields no response fails
with an untyped AttributeError, not with the unopened-session error (which
only an explicit driver-level close can trigger). -/
theorem c2_timeout_accounting (c : ClientState) (r : String) (st : MeterState)
    (hopen : st.isOpen = true) (hclosed : c.isOpen = false) :
    ((handleCommunication c (some r)).1.timeouts = 0) ∧
    ((handleCommunication (applyFails connectedClient 9) (some r)).1.timeouts = 0) ∧
    ((applyFails connectedClient 10).isOpen = false) ∧
    ((writeAndRead c false (some r)).2 = none) ∧
    (get st none = Except.error Err.attributeError) := by
  refine ⟨?_, ?_, by decide, ?_, ?_⟩
  · simp [handleCommunication]
  · simp [handleCommunication]
  · simp [writeAndRead, handleConnection, hclosed]
  · simp [get, hopen]

/-- Witness for C2 at a concrete closed client and the fresh meter state. -/
theorem c2_timeout_accounting_witness :
    ((handleCommunication
        { isOpen := false, timeouts := 10, maxTimeouts := 10, reconnecting := false }
        (some "x")).1.timeouts = 0) ∧
    ((handleCommunication (applyFails connectedClient 9) (some "x")).1.timeouts = 0) ∧
    ((applyFails connectedClient 10).isOpen = false) ∧
    ((writeAndRead
        { isOpen := false, timeouts := 10, maxTimeouts := 10, reconnecting := false }
        false (some "x")).2 = none) ∧
    (get meterA none = Except.error Err.attributeError) :=
  c2_timeout_accounting
    { isOpen := false, timeouts := 10, maxTimeouts := 10, reconnecting := false }
    "x" meterA rfl rfl

/-- C3 (counterexample): a read with 4 value tokens against the 6-field
baseline schema leaves the schema at length 6 (no adjustment rule fires),
so the schema length does not equal the parsed token count. -/
theorem c3_counterexample :
    get meterA (some "A 1.0 2.0 3.0 4.0")
      = Except.ok (meterA,
          [("pressure", Value.num (mkRat 1 1)), ("temperature", Value.num (mkRat 2 1)),
           ("volumetric_flow", Value.num (mkRat 3 1)), ("mass_flow", Value.num (mkRat 4 1))]) ∧
    meterA.keys.length = 6 ∧ meterA.keys.length ≠ 4 := by decide

/-- C3 (amended): the schema is adjusted only when its current length is 6
and the stripped token count is 2, 5 or 7; the adjusted length is 5 for a
5-token read and 7 for a 7-token read, but 7 (not 2) for a 2-token read; in
every other case the schema is left unchanged, so its length need not equal
the token count. -/
theorem c3_schema_adjustment (ks : List String) (n : Nat) :
    (ks.length = 6 → (adjustKeys ks 5).length = 5) ∧
    (ks.length = 6 → (adjustKeys ks 7).length = 7) ∧
    (ks.length = 6 → (adjustKeys ks 2).length = 7) ∧
    (¬(ks.length = 6 ∧ (n = 2 ∨ n = 5 ∨ n = 7)) → adjustKeys ks n = ks) := by
  refine ⟨?_, ?_, ?_, ?_⟩
  · intro h
    simp [adjustKeys, h, delSecondToLast]
  · intro h
    simp [adjustKeys, h, insertAt]
  · intro h
    simp [adjustKeys, h, insertAt]
  · intro h
    have h5 : ¬(n = 5 ∧ ks.length = 6) := fun hx => h ⟨hx.2, Or.inr (Or.inl hx.1)⟩
    have h7 : ¬(n = 7 ∧ ks.length = 6) := fun hx => h ⟨hx.2, Or.inr (Or.inr hx.1)⟩
    have h2 : ¬(n = 2 ∧ ks.length = 6) := fun hx => h ⟨hx.2, Or.inl hx.1⟩
    rw [adjustKeys, if_neg h5, if_neg h7, if_neg h2]

/-- Witness for C3 at the baseline schema with counts 5 and 4. -/
theorem c3_schema_adjustment_witness :
    (adjustKeys initialKeys 5).length = 5 ∧ adjustKeys initialKeys 4 = initialKeys :=
  ⟨(c3_schema_adjustment initialKeys 4).1 rfl,
   (c3_schema_adjustment initialKeys 4).2.2.2 (by decide)⟩

/-- C6 (counterexample): the response `"B"` against a session on unit `A`
has a mismatched echoed unit but no value tokens, and `read()` raises
IndexError from the overrange-stripping loop, not the unit-mismatch
ValueError (the strip runs before the unit check). -/
theorem c6_counterexample :
    get meterA (some "B") = Except.error Err.indexError ∧
    get meterA (some "B") ≠ Except.error (Err.valueError "Flow controller unit ID mismatch.") := by
  decide

/-- C6 (amended): whenever at least one value token survives overrange
stripping, a response whose echoed unit differs from the session's unit
makes `read()` raise the unit-mismatch error, for any token content. -/
theorem c6_unit_mismatch (st : MeterState) (l unit : String)
    (values vs : List String) (hopen : st.isOpen = true)
    (hsplit : pySplit l = unit :: values) (hne : unit ≠ st.unit)
    (hstrip : stripOverrange values = Except.ok vs) :
    get st (some l) = Except.error (Err.valueError "Flow controller unit ID mismatch.") := by
  simp only [get, hopen, Bool.true_eq_false, if_false, hsplit]
  rw [getCore, hstrip]
  dsimp only
  rw [if_pos hne]

/-- Witness for C6: the response `"B x"` on a unit-`A` session. -/
theorem c6_unit_mismatch_witness :
    get meterA (some "B x") = Except.error (Err.valueError "Flow controller unit ID mismatch.") :=
  c6_unit_mismatch meterA "B x" "B" ["x"] ["x"] rfl (by decide) (by decide) (by decide)

/-- C10: when the write-and-read path yields no response — the client is not
open and reconnection fails, or the awaited read times out — `read()` raises
the untyped AttributeError from tokenizing `None`, rather than returning an
absence-of-result, an empty mapping, or a typed transport error. -/
theorem c10_none_response (st : MeterState) (c : ClientState) (r : Option String)
    (hopen : st.isOpen = true) (hclosed : c.isOpen = false) :
    get st none = Except.error Err.attributeError ∧
    (writeAndRead c false r).2 = none ∧
    (handleCommunication c none).2 = none := by
  refine ⟨?_, ?_, ?_⟩
  · simp [get, hopen]
  · simp [writeAndRead, handleConnection, hclosed]
  · simp only [handleCommunication]
    split <;> rfl

/-- Witness for C10 at the fresh meter and a concrete closed client. -/
theorem c10_none_response_witness :
    get meterA none = Except.error Err.attributeError ∧
    (writeAndRead
      { isOpen := false, timeouts := 3, maxTimeouts := 10, reconnecting := true }
      false (some "y")).2 = none ∧
    (handleCommunication
      { isOpen := false, timeouts := 3, maxTimeouts := 10, reconnecting := true }
      none).2 = none :=
  c10_none_response meterA
    { isOpen := false, timeouts := 3, maxTimeouts := 10, reconnecting := true }
    (some "y") rfl rfl

/-- C4: against the 6-field baseline schema, a stripped response with 5
tokens drops `setpoint`, 6 tokens keeps the baseline, 7 tokens inserts
`total flow` at position 5; the mapping's entry count equals the token
count; and the response `"A 14.2 25.1 2.502 2.499 A"` yields exactly the
5-field mapping of the claim. -/
theorem c4_adaptive_schema (st : MeterState) (values : List String)
    (hkeys : st.keys = initialKeys)
    (hstrip : stripOverrange values = Except.ok values)
    (hlock : extractLock values = Except.ok (false, values)) :
    (values.length = 5 →
      getCore st st.unit values
        = Except.ok ({ st with keys := keysWithoutSetpoint, buttonLock := false },
            keysWithoutSetpoint.zip (values.map coerce)) ∧
      (keysWithoutSetpoint.zip (values.map coerce)).length = values.length) ∧
    (values.length = 6 →
      getCore st st.unit values
        = Except.ok ({ st with keys := initialKeys, buttonLock := false },
            initialKeys.zip (values.map coerce)) ∧
      (initialKeys.zip (values.map coerce)).length = values.length) ∧
    (values.length = 7 →
      getCore st st.unit values
        = Except.ok ({ st with keys := keysWithTotal, buttonLock := false },
            keysWithTotal.zip (values.map coerce)) ∧
      (keysWithTotal.zip (values.map coerce)).length = values.length) ∧
    get meterA (some "A 14.2 25.1 2.502 2.499 A")
      = Except.ok ({ meterA with keys := keysWithoutSetpoint },
          [("pressure", Value.num (mkRat 142 10)), ("temperature", Value.num (mkRat 251 10)),
           ("volumetric_flow", Value.num (mkRat 2502 1000)),
           ("mass_flow", Value.num (mkRat 2499 1000)), ("gas", Value.str "A")]) := by
  have hself : ¬(st.unit ≠ st.unit) := fun hx => hx rfl
  refine ⟨?_, ?_, ?_, by decide⟩
  · intro hn
    have ha : adjustKeys initialKeys 5 = keysWithoutSetpoint := by decide
    constructor
    · rw [getCore, hstrip]
      dsimp only
      rw [if_neg hself, hlock]
      dsimp only
      rw [hkeys, hn, ha]
    · simp [List.length_zip, hn, keysWithoutSetpoint]
  · intro hn
    have ha : adjustKeys initialKeys 6 = initialKeys := by decide
    constructor
    · rw [getCore, hstrip]
      dsimp only
      rw [if_neg hself, hlock]
      dsimp only
      rw [hkeys, hn, ha]
    · simp [List.length_zip, hn, initialKeys]
  · intro hn
    have ha : adjustKeys initialKeys 7 = keysWithTotal := by decide
    constructor
    · rw [getCore, hstrip]
      dsimp only
      rw [if_neg hself, hlock]
      dsimp only
      rw [hkeys, hn, ha]
    · simp [List.length_zip, hn, keysWithTotal]

/-- Witness for C4: a 5-token response against the fresh meter state. -/
theorem c4_adaptive_schema_witness :
    getCore meterA meterA.unit ["1", "2", "3", "4", "5"]
      = Except.ok ({ meterA with keys := keysWithoutSetpoint, buttonLock := false },
          keysWithoutSetpoint.zip (["1", "2", "3", "4", "5"].map coerce)) ∧
    (keysWithoutSetpoint.zip (["1", "2", "3", "4", "5"].map coerce)).length
      = (["1", "2", "3", "4", "5"] : List String).length :=
  (c4_adaptive_schema meterA ["1", "2", "3", "4", "5"] rfl (by decide) (by decide)).1 rfl

/-- C5: trailing overrange markers (stacked, case-insensitive) never change
the stripped token list; a trailing lock token is removed and reported as
the lock flag, which is false exactly when the last token is not the lock
token; and `"A 14.2 25.1 2.502 2.499 LCK"` yields lock flag true with the 4
remaining value tokens mapped. -/
theorem c5_overrange_and_lock (vs ms : List String) (t : String)
    (hms : ∀ m ∈ ms, isOverrange m = true) :
    (stripOverrange (vs ++ ms) = stripOverrange vs) ∧
    (pyUpper t = "LCK" → extractLock (vs ++ [t]) = Except.ok (true, vs)) ∧
    (∀ v, vs.getLast? = some v → pyUpper v ≠ "LCK" →
      extractLock vs = Except.ok (false, vs)) ∧
    (get meterA (some "A 14.2 25.1 2.502 2.499 LCK")
      = Except.ok ({ meterA with buttonLock := true },
          [("pressure", Value.num (mkRat 142 10)), ("temperature", Value.num (mkRat 251 10)),
           ("volumetric_flow", Value.num (mkRat 2502 1000)),
           ("mass_flow", Value.num (mkRat 2499 1000))])) := by
  refine ⟨stripOverrange_append vs ms hms, ?_, ?_, by decide⟩
  · intro ht
    simp [extractLock, List.getLast?_concat, ht, List.dropLast_concat]
  · intro v hv hne
    simp [extractLock, hv, hne]

/-- Witness for C5: stacked markers after one value, a lowercase lock token,
and a bare value list. -/
theorem c5_overrange_and_lock_witness :
    stripOverrange (["14.2"] ++ ["MOV", "pov"]) = stripOverrange ["14.2"] ∧
    extractLock (["14.2"] ++ ["lck"]) = Except.ok (true, ["14.2"]) ∧
    extractLock ["14.2"] = Except.ok (false, ["14.2"]) :=
  have h := c5_overrange_and_lock ["14.2"] ["MOV", "pov"] "lck" (by decide)
  ⟨h.1, h.2.1 (by decide), h.2.2.1 "14.2" rfl (by decide)⟩

/-- C7 (counterexample): at setpoint 1.00 an echoed current value of 1.01 —
a decimal difference of exactly 0.01 — makes the write raise the
verification OSError: in binary64, `float('1.01') - 1.0` rounds to
`5764607523034240 / 2 ^ 59`, strictly above the double nearest 0.01
(`5764607523034235 / 2 ^ 59`), so `abs(current - setpoint) > 0.01` is true.
-/
theorem c7_counterexample :
    (set_setpoint { isOpen := true, unit := "A", controlPoint := none }
        (mkRat 1 1) (some "A 1 2 3 4 1.01")).2
      = Except.error (Err.oserror "Could not set setpoint.") ∧
    pyFloat "1.01" = some (mkRat 101 100) ∧
    ratAbs (ratSub (mkRat 101 100) (mkRat 1 1)) = mkRat 1 100 ∧
    dSub (roundDouble (mkRat 101 100)) (roundDouble (mkRat 1 1))
      = mkRat 5764607523034240 (2 ^ 59) ∧
    d001 = mkRat 5764607523034235 (2 ^ 59) := by decide

/-- C7 (amended): when the echo has a parseable numeric token at position 5,
the setpoint write succeeds exactly when the binary64 difference between the
parsed current value and the setpoint is within the double nearest 0.01,
and a larger binary64 difference raises the verification OSError; a decimal
difference of exactly 0.01 may therefore fail (1.01 against 1.00) or
succeed (2.51 against 2.50) depending on rounding. -/
theorem c7_setpoint_verification (c : Controller) (sp : Rat) (l t : String) (current : Rat)
    (hopen : c.isOpen = true) (htok : (pySplit l).get? 5 = some t)
    (hcur : pyFloat t = some current) :
    ((set_setpoint c sp (some l)).2 = Except.ok ()
      ↔ ratAbs (dSub (roundDouble current) (roundDouble sp)) ≤ d001) ∧
    (d001 < ratAbs (dSub (roundDouble current) (roundDouble sp)) →
      (set_setpoint c sp (some l)).2 = Except.error (Err.oserror "Could not set setpoint.")) := by
  have hno : ¬(c.isOpen = false) := by simp [hopen]
  rw [set_setpoint, if_neg hno]
  dsimp only
  rw [htok]
  dsimp only
  rw [hcur]
  dsimp only
  constructor
  · constructor
    · intro h
      by_contra hle
      rw [not_le] at hle
      rw [if_pos hle] at h
      simp at h
    · intro h
      rw [if_neg (not_lt.mpr h)]
  · intro hlt
    rw [if_pos hlt]

/-- Witness for C7: the same decimal boundary difference of 0.01 succeeds at
2.51 against setpoint 2.50 and fails at 1.01 against setpoint 1.00, exactly
as the binary64 comparison dictates. -/
theorem c7_setpoint_verification_witness :
    ((set_setpoint { isOpen := true, unit := "A", controlPoint := none }
        (mkRat 5 2) (some "A 1 2 3 4 2.51")).2 = Except.ok ()) ∧
    ((set_setpoint { isOpen := true, unit := "A", controlPoint := none }
        (mkRat 1 1) (some "A 1 2 3 4 1.01")).2
      = Except.error (Err.oserror "Could not set setpoint.")) :=
  ⟨(c7_setpoint_verification { isOpen := true, unit := "A", controlPoint := none }
      (mkRat 5 2) "A 1 2 3 4 2.51" "2.51" (mkRat 251 100) rfl (by decide) (by decide)).1.mpr
      (by decide),
   (c7_setpoint_verification { isOpen := true, unit := "A", controlPoint := none }
      (mkRat 1 1) "A 1 2 3 4 1.01" "1.01" (mkRat 101 100) rfl (by decide) (by decide)).2
      (by decide)⟩

/-- C8 (counterexample): on a session whose firmware is not cached,
`create_mix` with percentages summing to 99 is rejected with the validation
ValueError, but only after the firmware query `AVE` has already been sent —
so the rejection does not happen before any command is sent. -/
theorem c8_counterexample :
    create_mix { isOpen := true, unit := "A", controlPoint := none } none (some "6v1.0")
        236 "mix" [("Air", 49), ("N2", 50)] none
      = (["AVE"], Except.error (Err.valueError "Percentages of gas mix must add to 100%!")) ∧
    (["AVE"] : List String) ≠ ([] : List String) := by decide

/-- C8 (amended): on mix-capable firmware, a slot outside [236, 255], a
percentage sum other than 100, or an unrecognized gas name is rejected with
a validation error before the mix-create command is sent (the firmware
version query, when the version is not cached, is the only earlier command);
valid arguments send exactly the mix-create command. -/
theorem c8_create_mix_validation (c : Controller) (fw : String) (mix_no : Int)
    (name : String) (gs : List (String × Int)) (gm : Option String)
    (hopen : c.isOpen = true) (hfw : firmwareBad fw = false) :
    ((mix_no < 236 ∨ 255 < mix_no) →
      create_mix c (some fw) none mix_no name gs gm
        = ([], Except.error (Err.valueError "Mix number must be between 236-255!"))) ∧
    (236 ≤ mix_no → mix_no ≤ 255 → (gs.map Prod.snd).sum ≠ 100 →
      create_mix c (some fw) none mix_no name gs gm
        = ([], Except.error (Err.valueError "Percentages of gas mix must add to 100%!"))) ∧
    (236 ≤ mix_no → mix_no ≤ 255 → (gs.map Prod.snd).sum = 100 →
      gs.any (fun g => gasTable.contains g.1 = false) = true →
      create_mix c (some fw) none mix_no name gs gm
        = ([], Except.error (Err.valueError "Gas not supported!"))) ∧
    (236 ≤ mix_no → mix_no ≤ 255 → (gs.map Prod.snd).sum = 100 →
      gs.any (fun g => gasTable.contains g.1 = false) = false → gm ≠ some "?" →
      create_mix c (some fw) none mix_no name gs gm
        = ([mixCommand c.unit name mix_no gs], Except.ok ())) ∧
    (create_mix c none (some fw) mix_no name gs gm
      = ((c.unit ++ "VE") :: (create_mix c (some fw) none mix_no name gs gm).1,
         (create_mix c (some fw) none mix_no name gs gm).2)) := by
  have hno : ¬(c.isOpen = false) := by simp [hopen]
  have hfw' : ¬(firmwareBad fw = true) := by simp [hfw]
  refine ⟨?_, ?_, ?_, ?_, ?_⟩
  · intro hrange
    rw [create_mix, if_neg hno]
    dsimp only
    rw [if_neg hfw', if_pos hrange]
  · intro h1 h2 hsum
    rw [create_mix, if_neg hno]
    dsimp only
    rw [if_neg hfw', if_neg (by omega : ¬(mix_no < 236 ∨ 255 < mix_no)), if_pos hsum]
  · intro h1 h2 hsum hany
    rw [create_mix, if_neg hno]
    dsimp only
    rw [if_neg hfw', if_neg (by omega : ¬(mix_no < 236 ∨ 255 < mix_no)),
        if_neg (by simp [hsum]), if_pos hany]
  · intro h1 h2 hsum hany hgm
    rw [create_mix, if_neg hno]
    dsimp only
    rw [if_neg hfw', if_neg (by omega : ¬(mix_no < 236 ∨ 255 < mix_no)),
        if_neg (by simp [hsum]), if_neg (by simp only [hany]; decide), if_neg hgm]
    rfl
  · simp only [create_mix, if_neg hno]
    split_ifs <;> rfl

/-- Witness for C8: a valid mix on supported firmware sends exactly the
mix-create command. -/
theorem c8_create_mix_validation_witness :
    create_mix { isOpen := true, unit := "A", controlPoint := none } (some "6v1.0") none
        240 "mix" [("Air", 50), ("N2", 50)] (some "ok")
      = ([mixCommand "A" "mix" 240 [("Air", 50), ("N2", 50)]], Except.ok ()) :=
  (c8_create_mix_validation { isOpen := true, unit := "A", controlPoint := none }
      "6v1.0" 240 "mix" [("Air", 50), ("N2", 50)] (some "ok") rfl (by decide)).2.2.2.1
    (by decide) (by decide) (by decide) (by decide) (by decide)

/-- C9: `set_gas` writes the resolved gas index to register 46 addressed to
the session's unit, but the read-back command it then sends is the literal
string `f{self.unit}$$R46` — the source line lacks the f-string prefix — so
the read-back is not addressed to the session's unit as the claim states. -/
theorem c9_set_gas_readback :
    (set_gas { isOpen := true, unit := "A", controlPoint := none } (GasArg.name "Air")
        (some "A 046 = 0")).1
      = ["A$$W46=0", "f\x7bself.unit\x7d$$R46"] ∧
    "f\x7bself.unit\x7d$$R46" ≠ "A" ++ "$$R46" := by decide

end Alicat
